import Mathlib

/-!
# Movement Brokering Engine — verification of the core against its specification

Shallow embedding of the core of the `tesseracts-world` repository:
`src/core/router.py` (`RouteOptimizer`) and `src/core/gateway.py`
(`TesseractsGateway`), together with the parts of `src/models/core.py`
(pydantic models) that those two modules read.

Modelling conventions:
* Python `float` and `Decimal` are both modelled as `ℚ` (exact rational
  arithmetic standing in for the numeric values the code manipulates).
* `datetime` values are modelled as rational numbers of **minutes** on an
  absolute time line; the code only ever subtracts datetimes and divides
  the resulting seconds by 60, so a difference of two model times is
  exactly the code's `(a - b).total_seconds() / 60`.
* `datetime.utcnow()` is passed in explicitly as a `now : ℚ` parameter.
  Functions that call `utcnow()` more than once during one evaluation
  (scoring calls it in `_normalize_time_score` and again in
  `_get_priority_adjustment`) are modelled with a single `now`.
* Python dicts keyed by strings are association lists `List (String × α)`
  with the exact CPython semantics of `d[k] = v` (replace in place, else
  append), `del d[k]`, and membership; pydantic model fields that the
  modelled code never reads are omitted.
* `async` methods of provider adapters are modelled by their outcomes:
  an `Except Unit α` value is `.error ()` when the call raises and
  `.ok a` when it returns `a`.
-/

/-- Python `abs` on a rational (`abs(total_weight - 1.0)` in
`update_weights`, `abs(...)` in `_normalize_time_score`). -/
def ratAbs (x : ℚ) : ℚ := if x < 0 then -x else x

/-- `ServiceType` enum from `models/core.py`. -/
inductive ServiceType
  | rideshare
  | delivery
  | courier
  | freight
  | gig_work
  deriving DecidableEq

/-- `JobStatus` enum from `models/core.py`. -/
inductive JobStatus
  | pending
  | assigned
  | in_progress
  | completed
  | cancelled
  | failed
  deriving DecidableEq

/-- `Priority` enum from `models/core.py`. -/
inductive Priority
  | low
  | normal
  | high
  | urgent
  deriving DecidableEq

/-- `Worker` from `models/core.py`, restricted to the fields the core
reads (`rating` in quality scoring; pydantic validates
`rating ∈ [0,5]` when present). -/
structure Worker where
  id : String
  provider_id : String
  rating : Option ℚ
  deriving DecidableEq

/-- `Quote` from `models/core.py`, restricted to the fields the router
and gateway read.  Pydantic validates `confidence_score ∈ [0,1]`. -/
structure Quote where
  quote_id : String
  provider_id : String
  estimated_cost : ℚ
  estimated_pickup_time : ℚ
  estimated_delivery_time : ℚ
  expires_at : ℚ
  confidence_score : ℚ
  worker_info : Option Worker
  deriving DecidableEq

/-- `Job` from `models/core.py`, restricted to the fields the gateway
reads and writes (`id`, `provider_id`, `status`). -/
structure Job where
  id : String
  provider_id : String
  status : JobStatus
  deriving DecidableEq

/-- `JobUpdate` from `models/core.py`, restricted to the fields the
gateway reads. -/
structure JobUpdate where
  job_id : String
  status : JobStatus
  deriving DecidableEq

/-- `MovementRequest` from `models/core.py`, restricted to the fields
the router reads. -/
structure MovementRequest where
  service_type : ServiceType
  requested_pickup_time : Option ℚ
  priority : Priority
  deriving DecidableEq

/-! ## Python dict primitives on association lists -/

/-- `m[k]` / `k in m`: first binding of `k` (dicts built by the
operations below keep keys unique, so the first binding is the
binding). -/
def dlookup (m : List (String × α)) (k : String) : Option α :=
  match m with
  | [] => none
  | (k', v) :: t => if k' = k then some v else dlookup t k

/-- `m[k] = v`: replace the binding of `k` in place if present,
otherwise append a new binding (CPython insertion-order semantics). -/
def dinsert (m : List (String × α)) (k : String) (v : α) : List (String × α) :=
  match m with
  | [] => [(k, v)]
  | (k', v') :: t => if k' = k then (k, v) :: t else (k', v') :: dinsert t k v

/-- `del m[k]`: remove the binding of `k` (no-op when absent; the
Python `del` on an absent key raises `KeyError`, which the callers
modelled below check for separately). -/
def derase (m : List (String × α)) (k : String) : List (String × α) :=
  match m with
  | [] => []
  | (k', v) :: t => if k' = k then t else (k', v) :: derase t k

/-! ## `RouteOptimizer` (src/core/router.py) -/

/-- A provider adapter as the router observes it: static capability
facts plus the outcome of each remote call (`.error ()` models a raised
exception). -/
structure ProviderAdapter where
  provider_id : String
  supported_service_types : List ServiceType
  coverage_areas : List String
  get_quote : MovementRequest → Except Unit (Option Quote)
  health_check : Except Unit Bool
  get_available_workers : Except Unit (List Worker)

/-- Default scoring weights set in `RouteOptimizer.__init__`. -/
def default_weights : List (String × ℚ) :=
  [("cost", 3/10), ("time", 2/5), ("reliability", 1/5), ("quality", 1/10)]

/-- `RouteOptimizer._normalize_cost_score`. -/
def normalize_cost_score (cost : ℚ) : ℚ :=
  let max_reasonable_cost : ℚ := 100
  let min_reasonable_cost : ℚ := 5
  if cost ≤ min_reasonable_cost then 1
  else if max_reasonable_cost ≤ cost then 1/10
  else
    let normalized := 1 - (cost - min_reasonable_cost) / (max_reasonable_cost - min_reasonable_cost)
    max (1/10) normalized

/-- `RouteOptimizer._normalize_time_score` (times in minutes, `now`
standing for the `datetime.utcnow()` the function takes). -/
def normalize_time_score (now pickup_time delivery_time : ℚ)
    (requested_pickup : Option ℚ) : ℚ :=
  let pickup_delay_minutes := pickup_time - now
  let total_duration_minutes := delivery_time - pickup_time
  let pickup_score :=
    match requested_pickup with
    | some r => max 0 (1 - ratAbs (pickup_time - r) / 60)
    | none => max (1/10) (1 - pickup_delay_minutes / 60)
  let max_reasonable_duration : ℚ := 120
  let duration_score := max (1/10) (1 - total_duration_minutes / max_reasonable_duration)
  (pickup_score + duration_score) / 2

/-- `RouteOptimizer._calculate_quality_score`.  Python truthiness:
`quote.worker_info and quote.worker_info.rating` is false when the
worker is absent, the rating is `None`, or the rating is `0.0`. -/
def calculate_quality_score (quote : Quote) : ℚ :=
  let base_score : ℚ := 7/10
  match quote.worker_info with
  | some w =>
    match w.rating with
    | some r => if r ≠ 0 then r / 5 else base_score
    | none => base_score
  | none => base_score

/-- `RouteOptimizer._get_priority_adjustment`. -/
def get_priority_adjustment (now : ℚ) (priority : Priority) (quote : Quote) : ℚ :=
  match priority with
  | .urgent =>
    let pickup_delay := quote.estimated_pickup_time - now
    if pickup_delay ≤ 10 then 13/10
    else if pickup_delay ≤ 20 then 11/10
    else 7/10
  | .high => 1 + (quote.confidence_score - 1/2) * (2/10)
  | .low => 1
  | .normal => 1

/-- `RouteOptimizer._calculate_quote_score`.  The four weight lookups
cannot fail at runtime (the four keys are always present, see
`default_weights` and `update_weights`); a missing key defaults to 0
here. -/
def calculate_quote_score (weights : List (String × ℚ)) (now : ℚ)
    (request : MovementRequest) (quote : Quote) : ℚ :=
  let cost_score := normalize_cost_score quote.estimated_cost
  let time_score := normalize_time_score now quote.estimated_pickup_time
    quote.estimated_delivery_time request.requested_pickup_time
  let reliability_score := quote.confidence_score
  let quality_score := calculate_quality_score quote
  let priority_adjustment := get_priority_adjustment now request.priority quote
  ((dlookup weights "cost").getD 0 * cost_score +
   (dlookup weights "time").getD 0 * time_score +
   (dlookup weights "reliability").getD 0 * reliability_score +
   (dlookup weights "quality").getD 0 * quality_score) * priority_adjustment

/-- `RouteOptimizer._filter_suitable_providers`. -/
def filter_suitable_providers (providers : List ProviderAdapter)
    (request : MovementRequest) : List ProviderAdapter :=
  providers.filter fun p =>
    decide (request.service_type ∈ p.supported_service_types) &&
      (decide ("global" ∈ p.coverage_areas) || decide ("local" ∈ p.coverage_areas))

/-- `RouteOptimizer._get_provider_quote`: a raised exception is caught
and becomes `None`. -/
def get_provider_quote (provider : ProviderAdapter)
    (request : MovementRequest) : Option Quote :=
  match provider.get_quote request with
  | .ok q => q
  | .error _ => none

/-- Stable descending insertion: `x` goes after every already-placed
element scoring at least `x` (ties keep the earlier element first). -/
def insertDesc (key : α → ℚ) (x : α) : List α → List α
  | [] => [x]
  | y :: t => if key x ≤ key y then y :: insertDesc key x t else x :: y :: t

/-- Python's stable `list.sort(key=..., reverse=True)`: descending by
key, ties in original order. -/
def sortDesc (key : α → ℚ) (l : List α) : List α :=
  l.foldl (fun acc x => insertDesc key x acc) []

/-- `RouteOptimizer.get_optimal_quotes`: filter suitable providers,
fan out `get_quote` with per-provider fault isolation, drop failures
and empty offers, score, sort descending, return the top
`max_quotes`. -/
def get_optimal_quotes (providers : List ProviderAdapter) (weights : List (String × ℚ))
    (now : ℚ) (request : MovementRequest) (max_quotes : Nat) : List Quote :=
  let suitable := filter_suitable_providers providers request
  let valid_quotes := suitable.filterMap fun p => get_provider_quote p request
  let scored_quotes := valid_quotes.map fun q => (q, calculate_quote_score weights now request q)
  let sorted := sortDesc Prod.snd scored_quotes
  (sorted.take max_quotes).map Prod.fst

/-- `RouteOptimizer.update_weights`: validate that the *given* weights
sum to 1.0 within 0.01, then merge them into the current dict
(`self.weights.update(new_weights)`); `.error ()` models the raised
`ValueError`. -/
def update_weights (weights : List (String × ℚ)) (new_weights : List (String × ℚ)) :
    Except Unit (List (String × ℚ)) :=
  let total_weight := (new_weights.map Prod.snd).sum
  if 1/100 < ratAbs (total_weight - 1) then .error ()
  else .ok (new_weights.foldl (fun d kv => dinsert d kv.1 kv.2) weights)

/-- `RouteOptimizer.get_provider_health_status`: fan out
`health_check` to every provider; a call that raises (or returns a
non-bool) is reported `false`. -/
def get_provider_health_status (providers : List ProviderAdapter) :
    List (String × Bool) :=
  providers.map fun p =>
    (p.provider_id, match p.health_check with | .ok b => b | .error _ => false)

/-! ## `TesseractsGateway` (src/core/gateway.py) — sequential operations

Each gateway method is modelled as a function from the mutable state it
touches (`active_quotes`, `active_jobs`) to the successor state and a
result; a raised `ValueError` / propagated provider exception is an
explicit error value, returned together with the state so that the
effect (or absence of effect) of failing paths is part of the model. -/

/-- A provider adapter as the gateway's job-lifecycle methods observe
it: the outcome of each remote call. -/
structure ProviderRT where
  create_job : String → MovementRequest → Except Unit Job
  job_status : String → Except Unit JobUpdate
  do_cancel_job : String → Except Unit Bool

/-- The gateway's mutable state: `self.active_quotes` and
`self.active_jobs`. -/
structure GatewayState where
  active_quotes : List (String × Quote)
  active_jobs : List (String × Job)
  deriving DecidableEq

/-- Errors raised by the modelled gateway methods: the `ValueError`s of
`accept_quote` / `get_job_status` / `cancel_job`, plus `upstream` for a
provider exception propagating through the gateway uncaught. -/
inductive GwError
  | notFound
  | expired
  | providerUnavailable
  | upstream
  deriving DecidableEq

/-- `TesseractsGateway.accept_quote`, executed without interleaving:
look up the quote (`not found or expired`), check expiry, resolve the
provider, call `create_job`, store the job, and only then delete the
quote.  On every error path no mutation has happened yet, so the state
comes back unchanged — exactly as in the source, where the only writes
(`self.active_jobs[job.id] = job`, `del self.active_quotes[quote_id]`)
sit after the last fallible statement. -/
def accept_quote (providers : List (String × ProviderRT)) (s : GatewayState)
    (quote_id : String) (request : MovementRequest) (now : ℚ) :
    GatewayState × Except GwError Job :=
  match dlookup s.active_quotes quote_id with
  | none => (s, .error .notFound)
  | some quote =>
    if quote.expires_at < now then (s, .error .expired)
    else
      match dlookup providers quote.provider_id with
      | none => (s, .error .providerUnavailable)
      | some provider =>
        match provider.create_job quote_id request with
        | .error _ => (s, .error .upstream)
        | .ok job =>
          ({ active_jobs := dinsert s.active_jobs job.id job,
             active_quotes := derase s.active_quotes quote_id }, .ok job)

/-- `TesseractsGateway.get_job_status`: look up the job, resolve its
provider, poll the provider, then mirror the reported status into the
registry entry unconditionally (`job.status = job_update.status`). -/
def get_job_status (providers : List (String × ProviderRT)) (s : GatewayState)
    (job_id : String) : GatewayState × Except GwError JobUpdate :=
  match dlookup s.active_jobs job_id with
  | none => (s, .error .notFound)
  | some job =>
    match dlookup providers job.provider_id with
    | none => (s, .error .providerUnavailable)
    | some provider =>
      match provider.job_status job_id with
      | .error _ => (s, .error .upstream)
      | .ok job_update =>
        ({ s with active_jobs :=
            dinsert s.active_jobs job_id { job with status := job_update.status } },
         .ok job_update)

/-- `TesseractsGateway.cancel_job`: delegate to the provider; when it
confirms (`True`), mark the registry entry `cancelled` whatever its
previous status; when it returns `False`, change nothing. -/
def cancel_job (providers : List (String × ProviderRT)) (s : GatewayState)
    (job_id : String) : GatewayState × Except GwError Bool :=
  match dlookup s.active_jobs job_id with
  | none => (s, .error .notFound)
  | some job =>
    match dlookup providers job.provider_id with
    | none => (s, .error .providerUnavailable)
    | some provider =>
      match provider.do_cancel_job job_id with
      | .error _ => (s, .error .upstream)
      | .ok true =>
        ({ s with active_jobs :=
            dinsert s.active_jobs job_id { job with status := .cancelled } },
         .ok true)
      | .ok false => (s, .ok false)

/-- `TesseractsGateway.cleanup_expired_quotes`: the expiry sweep —
remove every cached quote whose expiry has passed. -/
def cleanup_expired_quotes (s : GatewayState) (now : ℚ) : GatewayState :=
  { s with active_quotes :=
      s.active_quotes.filter fun kv => !decide (kv.2.expires_at < now) }

/-- `TesseractsGateway.get_available_workers`, up to the aggregation:
fan out to every provider supporting the service type, keep the worker
lists of the calls that returned one (`isinstance(result, list)`), and
concatenate them in fan-out order.  The final per-worker dict
conversion in the source is an element-wise map over this list (it
involves a float square-root distance) and does not affect which
providers' contributions appear, so the aggregation is the modelled
value. -/
def get_available_workers (providers : List ProviderAdapter)
    (service_type : ServiceType) : List Worker :=
  let tasked := providers.filter fun p =>
    decide (service_type ∈ p.supported_service_types)
  let results := tasked.filterMap fun p =>
    match p.get_available_workers with
    | .ok l => some l
    | .error _ => none
  results.flatten

/-! ## `accept_quote` under cooperative interleaving

`accept_quote` is an `async` method; control can pass to another task
only at its single `await` (`provider.create_job`).  The method is
therefore exactly two atomic segments:

* segment 1 — the membership check, the expiry check, the provider
  lookup, and the *issuing* of `create_job` (no state mutation);
* segment 2 — on resumption with the provider's job: store the job in
  `active_jobs`, then `del active_quotes[quote_id]` (which raises
  `KeyError` if another task deleted the quote meanwhile), then return.

The model runs several callers of `accept_quote` under an explicit
scheduler and counts how often `provider.create_job` is issued. -/

/-- Outcome of one `accept_quote` caller.  `keyError` is the Python
`KeyError` raised by `del self.active_quotes[quote_id]` when the key
has already been deleted by a rival caller. -/
inductive AcceptOutcome
  | okJob (job : Job)
  | notFound
  | expired
  | providerUnavailable
  | keyError
  deriving DecidableEq

/-- Where one caller's coroutine currently stands. -/
inductive CallerPhase
  | ready
  | waitingCreate
  | finished (o : AcceptOutcome)
  deriving DecidableEq

/-- One caller of `accept_quote`: the quote id it races on, the job its
provider's `create_job` will return, and its coroutine phase. -/
structure Caller where
  quote_id : String
  provider_job : Job
  phase : CallerPhase
  deriving DecidableEq

/-- Shared gateway state as seen by racing `accept_quote` callers,
plus a count of how many times `provider.create_job` has been
issued. -/
structure ConcState where
  active_quotes : List (String × Quote)
  active_jobs : List (String × Job)
  create_job_calls : Nat
  deriving DecidableEq

/-- One atomic segment of one caller (`provider_ids` is the key set of
`self.providers`). -/
def caller_step (provider_ids : List String) (now : ℚ) (s : ConcState)
    (c : Caller) : ConcState × Caller :=
  match c.phase with
  | .ready =>
    match dlookup s.active_quotes c.quote_id with
    | none => (s, { c with phase := .finished .notFound })
    | some quote =>
      if quote.expires_at < now then (s, { c with phase := .finished .expired })
      else if decide (quote.provider_id ∈ provider_ids) then
        ({ s with create_job_calls := s.create_job_calls + 1 },
         { c with phase := .waitingCreate })
      else (s, { c with phase := .finished .providerUnavailable })
  | .waitingCreate =>
    let job := c.provider_job
    let s1 := { s with active_jobs := dinsert s.active_jobs job.id job }
    match dlookup s1.active_quotes c.quote_id with
    | some _ =>
      ({ s1 with active_quotes := derase s1.active_quotes c.quote_id },
       { c with phase := .finished (.okJob job) })
    | none => (s1, { c with phase := .finished .keyError })
  | .finished _ => (s, c)

/-- Run a schedule: each entry picks the caller (by index) whose next
atomic segment executes. -/
def run_schedule (provider_ids : List String) (now : ℚ) :
    ConcState → List Caller → List Nat → ConcState × List Caller
  | s, cs, [] => (s, cs)
  | s, cs, i :: rest =>
    match cs[i]? with
    | none => run_schedule provider_ids now s cs rest
    | some c =>
      let (s', c') := caller_step provider_ids now s c
      run_schedule provider_ids now s' (cs.set i c') rest


/-- Whether a provider's `get_quote` call returns (rather than
raises) on this request — the complement of “throws on every call”
for the quote fan-out. -/
def quote_call_ok (request : MovementRequest) (p : ProviderAdapter) : Bool :=
  match p.get_quote request with
  | .ok _ => true
  | .error _ => false

/-- Whether a provider's `get_available_workers` call returns rather
than raises. -/
def workers_call_ok (p : ProviderAdapter) : Bool :=
  match p.get_available_workers with
  | .ok _ => true
  | .error _ => false

deriving instance DecidableEq for Except

/-- A sequence of `update_weights` calls against a `RouteOptimizer`
that starts with the default weights; a call that raises keeps the
previous weights (the exception propagates to the caller, the
optimizer's state is untouched). -/
def run_weight_updates (updates : List (List (String × ℚ))) : List (String × ℚ) :=
  updates.foldl
    (fun w u => match update_weights w u with | .ok w' => w' | .error _ => w)
    default_weights

/-! ## Lemmas on the dict primitives -/

theorem dlookup_dinsert_self (m : List (String × α)) (k : String) (v : α) :
    dlookup (dinsert m k v) k = some v := by
  induction m with
  | nil => simp [dinsert, dlookup]
  | cons hd t ih =>
    obtain ⟨k0, v0⟩ := hd
    by_cases hk : k0 = k
    · simp [dinsert, dlookup, hk]
    · simp [dinsert, dlookup, hk, ih]

theorem dlookup_dinsert_ne (m : List (String × α)) (k k' : String) (v : α)
    (h : k' ≠ k) : dlookup (dinsert m k v) k' = dlookup m k' := by
  have hkk : k ≠ k' := fun hh => h hh.symm
  induction m with
  | nil => simp [dinsert, dlookup, hkk]
  | cons hd t ih =>
    obtain ⟨k0, v0⟩ := hd
    by_cases hk : k0 = k
    · subst hk
      simp [dinsert, dlookup, hkk]
    · by_cases hk' : k0 = k'
      · simp [dinsert, dlookup, hk, hk', h]
      · simp [dinsert, dlookup, hk, hk', ih]

theorem dlookup_derase_ne (m : List (String × α)) (k k' : String)
    (h : k' ≠ k) : dlookup (derase m k) k' = dlookup m k' := by
  have hkk : k ≠ k' := fun hh => h hh.symm
  induction m with
  | nil => simp [derase, dlookup]
  | cons hd t ih =>
    obtain ⟨k0, v0⟩ := hd
    by_cases hk : k0 = k
    · subst hk
      simp [derase, dlookup, hkk]
    · by_cases hk' : k0 = k'
      · simp [derase, dlookup, hk, hk', h]
      · simp [derase, dlookup, hk, hk', ih]

theorem dlookup_eq_none_of_not_mem (m : List (String × α)) (k : String)
    (h : k ∉ m.map Prod.fst) : dlookup m k = none := by
  induction m with
  | nil => rfl
  | cons hd t ih =>
    obtain ⟨k0, v0⟩ := hd
    simp only [List.map_cons, List.mem_cons, not_or] at h
    have h1 : ¬ k0 = k := fun hh => h.1 hh.symm
    simp [dlookup, h1, ih h.2]

theorem dlookup_derase_self (m : List (String × α)) (k : String)
    (h : (m.map Prod.fst).Nodup) : dlookup (derase m k) k = none := by
  induction m with
  | nil => simp [derase, dlookup]
  | cons hd t ih =>
    obtain ⟨k0, v0⟩ := hd
    simp only [List.map_cons, List.nodup_cons] at h
    by_cases hk : k0 = k
    · subst hk
      simp only [derase, if_pos rfl]
      exact dlookup_eq_none_of_not_mem t k0 h.1
    · simp only [derase, if_neg hk, dlookup, if_neg hk]
      exact ih h.2

theorem length_dinsert_fresh (m : List (String × α)) (k : String) (v : α)
    (h : dlookup m k = none) : (dinsert m k v).length = m.length + 1 := by
  induction m with
  | nil => simp [dinsert]
  | cons hd t ih =>
    by_cases hk : hd.1 = k
    · simp [dlookup, hk] at h
    · simp only [dlookup, if_neg hk] at h
      simp [dinsert, if_neg hk, ih h]

/-! ## Helper lemmas on the scoring primitives -/

theorem ratAbs_nonneg (x : ℚ) : 0 ≤ ratAbs x := by
  unfold ratAbs
  split_ifs with h
  · linarith
  · linarith

theorem max_add_le (a b c : ℚ) (hc : 0 ≤ c) : max a (b + c) ≤ max a b + c := by
  apply max_le
  · linarith [le_max_left a b]
  · linarith [le_max_right a b]

theorem normalize_cost_score_bounds (cost : ℚ) :
    1/10 ≤ normalize_cost_score cost ∧ normalize_cost_score cost ≤ 1 := by
  simp only [normalize_cost_score]
  split_ifs with h1 h2
  · norm_num
  · norm_num
  · refine ⟨le_max_left _ _, max_le (by norm_num) ?_⟩
    have hc : 0 ≤ (cost - 5) / (100 - 5) := by
      apply div_nonneg
      · linarith
      · norm_num
    linarith

theorem calculate_quality_score_bounds (q : Quote)
    (h : ∀ wk r, q.worker_info = some wk → wk.rating = some r → 0 ≤ r ∧ r ≤ 5) :
    0 ≤ calculate_quality_score q ∧ calculate_quality_score q ≤ 1 := by
  rcases hw : q.worker_info with _ | wk
  · norm_num [calculate_quality_score, hw]
  · rcases hr : wk.rating with _ | r
    · norm_num [calculate_quality_score, hw, hr]
    · have hb := h wk r hw hr
      by_cases hz : r = 0
      · norm_num [calculate_quality_score, hw, hr, hz]
      · simp only [calculate_quality_score, hw, hr, if_pos hz]
        constructor
        · linarith [hb.1]
        · linarith [hb.2]

theorem normalize_time_score_bounds (now pickup delivery : ℚ) (requested : Option ℚ)
    (h1 : now ≤ pickup) (h2 : pickup ≤ delivery) :
    0 ≤ normalize_time_score now pickup delivery requested ∧
      normalize_time_score now pickup delivery requested ≤ 1 := by
  unfold normalize_time_score
  have hdur0 : 0 ≤ (delivery - pickup) / 120 := by
    apply div_nonneg
    · linarith
    · norm_num
  have hd1 : max (1/10 : ℚ) (1 - (delivery - pickup) / 120) ≤ 1 :=
    max_le (by norm_num) (by linarith)
  have hd0 : (1/10 : ℚ) ≤ max (1/10 : ℚ) (1 - (delivery - pickup) / 120) := le_max_left _ _
  match requested with
  | some r =>
    have hp0 : (0:ℚ) ≤ max 0 (1 - ratAbs (pickup - r) / 60) := le_max_left _ _
    have habs : 0 ≤ ratAbs (pickup - r) / 60 := by
      apply div_nonneg (ratAbs_nonneg _)
      norm_num
    have hp1 : max (0:ℚ) (1 - ratAbs (pickup - r) / 60) ≤ 1 :=
      max_le (by norm_num) (by linarith)
    constructor
    · simp only []
      linarith
    · simp only []
      linarith
  | none =>
    have hdel : 0 ≤ (pickup - now) / 60 := by
      apply div_nonneg
      · linarith
      · norm_num
    have hp0 : (1/10:ℚ) ≤ max (1/10 : ℚ) (1 - (pickup - now) / 60) := le_max_left _ _
    have hp1 : max (1/10:ℚ) (1 - (pickup - now) / 60) ≤ 1 :=
      max_le (by norm_num) (by linarith)
    constructor
    · simp only []
      linarith
    · simp only []
      linarith

/-! ## C6 — cost-score normalization -/

/-- C6: for every cost at or below the configured minimum reasonable
cost (5.00) the cost score is exactly 1.0; for every cost at or above
the configured maximum (100.00) it is exactly 0.1; strictly between,
it is the inverted linear interpolation `1 − (cost − 5)/(100 − 5)`
floored at 0.1, and it is never zero. -/
theorem c6_cost_score_normalization (cost : ℚ) :
    (cost ≤ 5 → normalize_cost_score cost = 1) ∧
    (100 ≤ cost → normalize_cost_score cost = 1/10) ∧
    (5 < cost → cost < 100 →
      normalize_cost_score cost = max (1/10) (1 - (cost - 5) / (100 - 5)) ∧
      0 < normalize_cost_score cost) := by
  refine ⟨fun h => by simp [normalize_cost_score, h], fun h => ?_, fun h1 h2 => ?_⟩
  · have h5 : ¬ cost ≤ 5 := by linarith
    simp [normalize_cost_score, h5, h]
  · have h5 : ¬ cost ≤ 5 := by linarith
    have h100 : ¬ 100 ≤ cost := by linarith
    refine ⟨by simp [normalize_cost_score, h5, h100], ?_⟩
    have hb := (normalize_cost_score_bounds cost).1
    linarith

/-- C6 witness: the theorem applied at costs 3, 150 and 97. -/
theorem c6_cost_score_normalization_witness :
    normalize_cost_score 3 = 1 ∧ normalize_cost_score 150 = 1/10 ∧
      (normalize_cost_score 97 = max (1/10) (1 - (97 - 5) / (100 - 5)) ∧
        0 < normalize_cost_score 97) :=
  ⟨(c6_cost_score_normalization 3).1 (by norm_num),
   (c6_cost_score_normalization 150).2.1 (by norm_num),
   (c6_cost_score_normalization 97).2.2 (by norm_num) (by norm_num)⟩

/-! ## C2 — scoring-weight configuration invariant -/

/-- C2 counterexample: the accepted partial update
`update_weights({"cost": 1.0})` (its own values sum to 1.0, so the
check passes) merges into the default dict and leaves the effective
weights summing to 1.7, far outside the 0.01 tolerance. -/
theorem c2_partial_update_counterexample :
    update_weights default_weights [("cost", 1)] =
      .ok [("cost", 1), ("time", 2/5), ("reliability", 1/5), ("quality", 1/10)] ∧
    ratAbs
      ((([("cost", (1:ℚ)), ("time", 2/5), ("reliability", 1/5), ("quality", 1/10)]).map
          Prod.snd).sum - 1) = 7/10 ∧
    (1:ℚ)/100 < 7/10 := by
  refine ⟨?_, ?_, by norm_num⟩
  · simp [update_weights, default_weights, dinsert, ratAbs]
  · simp only [List.map_cons, List.map_nil, List.sum_cons, List.sum_nil, ratAbs]
    norm_num

/-- C2 (amended): an update whose supplied weights do not sum to 1.0
within 0.01 is rejected with an error before any state change; and
after every sequence of `update_weights` calls each of which supplies
a value for all four factors (a full replacement), the effective
weights sum to 1.0 within 0.01.  (A *partial* accepted update merges
into the dict and can break the invariant, see the counterexample.) -/
theorem c2_weights_invariant (updates : List (List (String × ℚ)))
    (hfull : ∀ u ∈ updates, ∃ a b c d : ℚ,
      u = [("cost", a), ("time", b), ("reliability", c), ("quality", d)]) :
    ratAbs (((run_weight_updates updates).map Prod.snd).sum - 1) ≤ 1/100 ∧
    ∀ (w u : List (String × ℚ)), 1/100 < ratAbs ((u.map Prod.snd).sum - 1) →
      update_weights w u = .error () := by
  constructor
  · have key : ∀ (us : List (List (String × ℚ))) (w : List (String × ℚ)),
        (∃ a b c d : ℚ,
          w = [("cost", a), ("time", b), ("reliability", c), ("quality", d)]) →
        ratAbs ((w.map Prod.snd).sum - 1) ≤ 1/100 →
        (∀ u ∈ us, ∃ a b c d : ℚ,
          u = [("cost", a), ("time", b), ("reliability", c), ("quality", d)]) →
        ratAbs (((us.foldl
            (fun w u => match update_weights w u with | .ok w' => w' | .error _ => w)
            w).map Prod.snd).sum - 1) ≤ 1/100 := by
      intro us
      induction us with
      | nil =>
        intro w _ hsum _
        simpa using hsum
      | cons u rest ih =>
        intro w hshape hsum hall
        obtain ⟨a, b, c, d, hw⟩ := hshape
        obtain ⟨a', b', c', d', hu⟩ := hall u (by simp)
        simp only [List.foldl_cons]
        by_cases hrej : 1/100 < ratAbs (((u.map Prod.snd).sum) - 1)
        · have huw : update_weights w u = .error () := by
            simp only [update_weights]
            rw [if_pos hrej]
          rw [huw]
          exact ih w ⟨a, b, c, d, hw⟩ hsum (fun v hv => hall v (by simp [hv]))
        · have hacc : update_weights w u = .ok u := by
            subst hw hu
            simp only [update_weights, if_neg hrej]
            rfl
          rw [hacc]
          exact ih u ⟨a', b', c', d', hu⟩ (by linarith [not_lt.mp hrej])
            (fun v hv => hall v (by simp [hv]))
    refine key updates default_weights ⟨3/10, 2/5, 1/5, 1/10, rfl⟩ ?_ hfull
    simp only [default_weights, List.map_cons, List.map_nil, List.sum_cons, List.sum_nil, ratAbs]
    norm_num
  · intro w u hbad
    simp only [update_weights]
    rw [if_pos hbad]

/-- C2 witness: the theorem applied to the two-update sequence
“full update to {0.25, 0.25, 0.25, 0.25}, then a rejected update”,
plus the rejection conjunct applied to a violating update. -/
theorem c2_weights_invariant_witness :
    ratAbs (((run_weight_updates
        [[("cost", 1/4), ("time", 1/4), ("reliability", 1/4), ("quality", 1/4)]]).map
        Prod.snd).sum - 1) ≤ 1/100 ∧
    update_weights default_weights [("cost", 1/2)] = .error () :=
  ⟨(c2_weights_invariant
      [[("cost", 1/4), ("time", 1/4), ("reliability", 1/4), ("quality", 1/4)]]
      (by intro u hu; rw [List.mem_singleton] at hu; exact ⟨1/4, 1/4, 1/4, 1/4, hu⟩)).1,
   (c2_weights_invariant [] (by simp)).2 default_weights [("cost", 1/2)]
     (by simp [ratAbs]; norm_num)⟩

/-! ## C1 — at-most-once quote consumption under concurrency -/

/-- C1 (code bug): `accept_quote` checks membership and expiry, then
suspends at `await provider.create_job(...)`, and only deletes the
quote after resuming.  Under the schedule that runs both callers'
check segments before either resumes, **both** callers pass the checks
and both issue `create_job` (the single cached quote is consumed twice
at the provider, and both provider-created jobs land in the
registry); the second caller to resume then fails with `KeyError`
from `del self.active_quotes[quote_id]` — not with the NotFound or
Expired error the specification requires for every losing caller. -/
theorem c1_accept_quote_race :
    (run_schedule ["p1"] 0
      ⟨[("q1", ⟨"q1", "p1", 10, 5, 30, 100, 0, none⟩)], [], 0⟩
      [⟨"q1", ⟨"jobA", "p1", .pending⟩, .ready⟩, ⟨"q1", ⟨"jobB", "p1", .pending⟩, .ready⟩]
      [0, 1, 0, 1]).1.create_job_calls = 2 ∧
    ((run_schedule ["p1"] 0
      ⟨[("q1", ⟨"q1", "p1", 10, 5, 30, 100, 0, none⟩)], [], 0⟩
      [⟨"q1", ⟨"jobA", "p1", .pending⟩, .ready⟩, ⟨"q1", ⟨"jobB", "p1", .pending⟩, .ready⟩]
      [0, 1, 0, 1]).2.map Caller.phase) =
      [.finished (.okJob ⟨"jobA", "p1", .pending⟩), .finished .keyError] ∧
    dlookup (run_schedule ["p1"] 0
      ⟨[("q1", ⟨"q1", "p1", 10, 5, 30, 100, 0, none⟩)], [], 0⟩
      [⟨"q1", ⟨"jobA", "p1", .pending⟩, .ready⟩, ⟨"q1", ⟨"jobB", "p1", .pending⟩, .ready⟩]
      [0, 1, 0, 1]).1.active_jobs "jobB" = some ⟨"jobB", "p1", .pending⟩ ∧
    AcceptOutcome.keyError ≠ AcceptOutcome.notFound ∧
    AcceptOutcome.keyError ≠ AcceptOutcome.expired := by
  refine ⟨by decide, by decide, by decide, by decide, by decide⟩

/-! ## C3 — a quote is NOT consumed when `create_job` throws -/

/-- C3 counterexample: the claim (and the spec sentence it cites) says
that once the cached quote has been found, a `create_job` failure
still consumes it, so a retry gets NotFound.  In the source the
`del self.active_quotes[quote_id]` sits *after* the `create_job`
call, so when `create_job` raises, the quote is still cached and the
retry repeats the provider call instead of failing NotFound. -/
theorem c3_counterexample :
    accept_quote [("p1", ⟨fun _ _ => .error (), fun _ => .error (), fun _ => .error ()⟩)]
      ⟨[("q1", ⟨"q1", "p1", 10, 5, 30, 100, 0, none⟩)], []⟩ "q1"
      ⟨.delivery, none, .normal⟩ 0 =
      (⟨[("q1", ⟨"q1", "p1", 10, 5, 30, 100, 0, none⟩)], []⟩, .error .upstream) ∧
    dlookup
      (accept_quote [("p1", ⟨fun _ _ => .error (), fun _ => .error (), fun _ => .error ()⟩)]
        ⟨[("q1", ⟨"q1", "p1", 10, 5, 30, 100, 0, none⟩)], []⟩ "q1"
        ⟨.delivery, none, .normal⟩ 0).1.active_quotes "q1" =
      some ⟨"q1", "p1", 10, 5, 30, 100, 0, none⟩ ∧
    (Except.error GwError.upstream : Except GwError Job) ≠ .error .notFound := by
  refine ⟨by decide, by decide, by decide⟩

/-- C3 (amended): when the cached quote is present and unexpired, its
provider is registered, and the provider's `create_job` throws, the
exception propagates (`upstream`), the gateway state — the quote cache
in particular — is exactly unchanged, and an immediate retry on the
same id runs the same path again (calling `create_job` a second time)
rather than failing NotFound. -/
theorem c3_create_job_failure_keeps_quote (providers : List (String × ProviderRT))
    (s : GatewayState) (quote_id : String) (request : MovementRequest) (now : ℚ)
    (quote : Quote) (p : ProviderRT)
    (hq : dlookup s.active_quotes quote_id = some quote)
    (hexp : ¬ quote.expires_at < now)
    (hp : dlookup providers quote.provider_id = some p)
    (hfail : p.create_job quote_id request = .error ()) :
    accept_quote providers s quote_id request now = (s, .error .upstream) ∧
    dlookup (accept_quote providers s quote_id request now).1.active_quotes quote_id =
      some quote ∧
    accept_quote providers (accept_quote providers s quote_id request now).1
      quote_id request now = (s, .error .upstream) := by
  have hmain : accept_quote providers s quote_id request now = (s, .error .upstream) := by
    simp only [accept_quote, hq, hp, hfail, if_neg hexp]
  refine ⟨hmain, ?_, ?_⟩
  · rw [hmain]
    exact hq
  · rw [hmain]
    exact hmain

/-- C3 witness: the amended theorem applied to a concrete cached quote
and a provider whose `create_job` always raises. -/
theorem c3_create_job_failure_keeps_quote_witness :
    accept_quote [("p1", ⟨fun _ _ => .error (), fun _ => .error (), fun _ => .error ()⟩)]
      ⟨[("q1", ⟨"q1", "p1", 20, 5, 30, 100, 0, none⟩)], []⟩ "q1"
      ⟨.rideshare, none, .normal⟩ 0 =
      (⟨[("q1", ⟨"q1", "p1", 20, 5, 30, 100, 0, none⟩)], []⟩, .error .upstream) ∧
    dlookup
      (accept_quote [("p1", ⟨fun _ _ => .error (), fun _ => .error (), fun _ => .error ()⟩)]
        ⟨[("q1", ⟨"q1", "p1", 20, 5, 30, 100, 0, none⟩)], []⟩ "q1"
        ⟨.rideshare, none, .normal⟩ 0).1.active_quotes "q1" =
      some ⟨"q1", "p1", 20, 5, 30, 100, 0, none⟩ ∧
    accept_quote [("p1", ⟨fun _ _ => .error (), fun _ => .error (), fun _ => .error ()⟩)]
      (accept_quote [("p1", ⟨fun _ _ => .error (), fun _ => .error (), fun _ => .error ()⟩)]
        ⟨[("q1", ⟨"q1", "p1", 20, 5, 30, 100, 0, none⟩)], []⟩ "q1"
        ⟨.rideshare, none, .normal⟩ 0).1 "q1" ⟨.rideshare, none, .normal⟩ 0 =
      (⟨[("q1", ⟨"q1", "p1", 20, 5, 30, 100, 0, none⟩)], []⟩, .error .upstream) :=
  c3_create_job_failure_keeps_quote
    [("p1", ⟨fun _ _ => .error (), fun _ => .error (), fun _ => .error ()⟩)]
    ⟨[("q1", ⟨"q1", "p1", 20, 5, 30, 100, 0, none⟩)], []⟩ "q1"
    ⟨.rideshare, none, .normal⟩ 0 ⟨"q1", "p1", 20, 5, 30, 100, 0, none⟩
    ⟨fun _ _ => .error (), fun _ => .error (), fun _ => .error ()⟩
    rfl (by decide) rfl rfl

/-! ## C4 — terminal job states are not enforced by the gateway -/

/-- C4 counterexample: a job whose registry status is `completed` — a
terminal state — is moved back to `pending` by `get_job_status` when
the provider reports `pending`, and a `completed` job is moved to
`cancelled` by `cancel_job` when the provider confirms the cancel;
neither operation guards terminal states. -/
theorem c4_counterexample :
    dlookup (get_job_status
        [("p1", ⟨fun _ _ => .error (), fun _ => .ok ⟨"j1", .pending⟩, fun _ => .ok true⟩)]
        ⟨[], [("j1", ⟨"j1", "p1", .completed⟩)]⟩ "j1").1.active_jobs "j1" =
      some ⟨"j1", "p1", .pending⟩ ∧
    dlookup (cancel_job
        [("p1", ⟨fun _ _ => .error (), fun _ => .ok ⟨"j1", .pending⟩, fun _ => .ok true⟩)]
        ⟨[], [("j1", ⟨"j1", "p1", .completed⟩)]⟩ "j1").1.active_jobs "j1" =
      some ⟨"j1", "p1", .cancelled⟩ ∧
    JobStatus.pending ≠ JobStatus.completed ∧
    JobStatus.cancelled ≠ JobStatus.completed := by
  refine ⟨by decide, by decide, by decide, by decide⟩

/-- C4 (amended): the registry is an unguarded mirror of the provider:
a successful `get_job_status` overwrites the stored status with
whatever status the provider reports — whatever the previous status,
terminal included — and a provider-confirmed `cancel_job` sets
`cancelled` from any previous status, while an unconfirmed cancel
changes nothing.  A job therefore leaves a terminal state exactly when
the provider reports (or confirms) such a transition. -/
theorem c4_registry_mirrors_provider (providers : List (String × ProviderRT))
    (s : GatewayState) (job_id : String) (job : Job) (p : ProviderRT)
    (u : JobUpdate) (b : Bool)
    (hj : dlookup s.active_jobs job_id = some job)
    (hp : dlookup providers job.provider_id = some p)
    (hu : p.job_status job_id = .ok u)
    (hc : p.do_cancel_job job_id = .ok b) :
    dlookup (get_job_status providers s job_id).1.active_jobs job_id =
      some { job with status := u.status } ∧
    (b = true → dlookup (cancel_job providers s job_id).1.active_jobs job_id =
      some { job with status := .cancelled }) ∧
    (b = false → (cancel_job providers s job_id).1 = s) := by
  refine ⟨?_, fun hb => ?_, fun hb => ?_⟩
  · simp only [get_job_status, hj, hp, hu]
    exact dlookup_dinsert_self _ _ _
  · subst hb
    simp only [cancel_job, hj, hp, hc]
    exact dlookup_dinsert_self _ _ _
  · subst hb
    simp only [cancel_job, hj, hp, hc]

/-- C4 witness: the amended theorem applied to a `completed` job whose
provider reports `in_progress` and confirms cancellation. -/
theorem c4_registry_mirrors_provider_witness :
    dlookup (get_job_status
        [("p1", ⟨fun _ _ => .error (), fun _ => .ok ⟨"j2", .in_progress⟩, fun _ => .ok true⟩)]
        ⟨[], [("j2", ⟨"j2", "p1", .completed⟩)]⟩ "j2").1.active_jobs "j2" =
      some ⟨"j2", "p1", .in_progress⟩ ∧
    (true = true → dlookup (cancel_job
        [("p1", ⟨fun _ _ => .error (), fun _ => .ok ⟨"j2", .in_progress⟩, fun _ => .ok true⟩)]
        ⟨[], [("j2", ⟨"j2", "p1", .completed⟩)]⟩ "j2").1.active_jobs "j2" =
      some ⟨"j2", "p1", .cancelled⟩) ∧
    (true = false → (cancel_job
        [("p1", ⟨fun _ _ => .error (), fun _ => .ok ⟨"j2", .in_progress⟩, fun _ => .ok true⟩)]
        ⟨[], [("j2", ⟨"j2", "p1", .completed⟩)]⟩ "j2").1 =
      ⟨[], [("j2", ⟨"j2", "p1", .completed⟩)]⟩) :=
  c4_registry_mirrors_provider
    [("p1", ⟨fun _ _ => .error (), fun _ => .ok ⟨"j2", .in_progress⟩, fun _ => .ok true⟩)]
    ⟨[], [("j2", ⟨"j2", "p1", .completed⟩)]⟩ "j2" ⟨"j2", "p1", .completed⟩
    ⟨fun _ _ => .error (), fun _ => .ok ⟨"j2", .in_progress⟩, fun _ => .ok true⟩
    ⟨"j2", .in_progress⟩ true
    rfl rfl rfl rfl

/-! ## C5 — provider fault isolation -/

theorem filterMap_filter_drop {α β : Type _} (f : α → Option β) (s okp : α → Bool)
    (h : ∀ p, okp p = false → f p = none) (ps : List α) :
    (ps.filter s).filterMap f = ((ps.filter okp).filter s).filterMap f := by
  induction ps with
  | nil => rfl
  | cons hd t ih =>
    by_cases hs : s hd = true
    · by_cases ho : okp hd = true
      · simp [List.filter_cons, hs, ho, List.filterMap_cons, ih]
      · have hf := h hd (by revert ho; cases okp hd <;> simp)
        simp [List.filter_cons, hs, ho, List.filterMap_cons, hf, ih]
    · by_cases ho : okp hd = true
      · simp [List.filter_cons, hs, ho, ih]
      · simp [List.filter_cons, hs, ho, ih]

/-- C5: dropping every provider whose call raises changes nothing in
the quote fan-out (`get_optimal_quotes`) or the worker aggregation
(`get_available_workers`): the throwing providers are exactly dropped
and the non-throwing providers' contributions survive in full; the
health map has one entry per registered provider, reports `false` for
every provider whose `health_check` raises, and reports the returned
boolean for every provider whose `health_check` returns. -/
theorem c5_provider_fault_isolation (providers : List ProviderAdapter)
    (weights : List (String × ℚ)) (now : ℚ) (request : MovementRequest)
    (max_quotes : Nat) (service_type : ServiceType) :
    get_optimal_quotes providers weights now request max_quotes =
      get_optimal_quotes (providers.filter (quote_call_ok request)) weights now
        request max_quotes ∧
    get_available_workers providers service_type =
      get_available_workers (providers.filter workers_call_ok) service_type ∧
    (get_provider_health_status providers).map Prod.fst =
      providers.map ProviderAdapter.provider_id ∧
    (∀ p ∈ providers, p.health_check = .error () →
      (p.provider_id, false) ∈ get_provider_health_status providers) ∧
    (∀ p ∈ providers, ∀ b, p.health_check = .ok b →
      (p.provider_id, b) ∈ get_provider_health_status providers) := by
  refine ⟨?_, ?_, ?_, ?_, ?_⟩
  · simp only [get_optimal_quotes, filter_suitable_providers]
    rw [filterMap_filter_drop (fun p => get_provider_quote p request) _
      (quote_call_ok request) ?hdrop providers]
    case hdrop =>
      intro p hp
      simp only [quote_call_ok] at hp
      simp only [get_provider_quote]
      cases hq : p.get_quote request with
      | ok q => rw [hq] at hp; simp at hp
      | error e => rfl
  · simp only [get_available_workers]
    rw [filterMap_filter_drop
      (fun p => match p.get_available_workers with | .ok l => some l | .error _ => none) _
      workers_call_ok ?hdropw providers]
    case hdropw =>
      intro p hp
      simp only [workers_call_ok] at hp
      cases hw : p.get_available_workers with
      | ok l => rw [hw] at hp; simp at hp
      | error e => simp only []; rw [hw]
  · simp [get_provider_health_status]
  · intro p hp hb
    have hmem : (p.provider_id,
        (match p.health_check with | .ok b => b | .error _ => false)) ∈
        get_provider_health_status providers := List.mem_map_of_mem _ hp
    rw [hb] at hmem
    exact hmem
  · intro p hp b hb
    have hmem : (p.provider_id,
        (match p.health_check with | .ok b => b | .error _ => false)) ∈
        get_provider_health_status providers := List.mem_map_of_mem _ hp
    rw [hb] at hmem
    exact hmem

/-- C5 witness: the fault-isolation theorem applied to a concrete
two-provider registry in which the second provider raises on every
call. -/
theorem c5_provider_fault_isolation_witness :
    ("bad", false) ∈ get_provider_health_status
      [⟨"good", [.delivery], ["global"], fun _ => .ok none, .ok true, .ok []⟩,
       ⟨"bad", [.delivery], ["global"], fun _ => .error (), .error (), .error ()⟩] ∧
    ("good", true) ∈ get_provider_health_status
      [⟨"good", [.delivery], ["global"], fun _ => .ok none, .ok true, .ok []⟩,
       ⟨"bad", [.delivery], ["global"], fun _ => .error (), .error (), .error ()⟩] :=
  ⟨(c5_provider_fault_isolation
      [⟨"good", [.delivery], ["global"], fun _ => .ok none, .ok true, .ok []⟩,
       ⟨"bad", [.delivery], ["global"], fun _ => .error (), .error (), .error ()⟩]
      default_weights 0 ⟨.delivery, none, .normal⟩ 5 .delivery).2.2.2.1
      ⟨"bad", [.delivery], ["global"], fun _ => .error (), .error (), .error ()⟩
      (List.mem_cons_of_mem _ (List.mem_cons_self _ _)) rfl,
   (c5_provider_fault_isolation
      [⟨"good", [.delivery], ["global"], fun _ => .ok none, .ok true, .ok []⟩,
       ⟨"bad", [.delivery], ["global"], fun _ => .error (), .error (), .error ()⟩]
      default_weights 0 ⟨.delivery, none, .normal⟩ 5 .delivery).2.2.2.2
      ⟨"good", [.delivery], ["global"], fun _ => .ok none, .ok true, .ok []⟩
      (List.mem_cons_self _ _) true rfl⟩

/-! ## C7 — urgent-priority adjustment and ranking -/

/-- C7 counterexample: the claim quantifies over *every* pair of
otherwise-identical quotes differing only in pickup delay (8 vs 25
minutes) under urgent priority.  When the request carries a
`requested_pickup_time` 68 minutes out, the 8-minute quote's pickup
score collapses to 0 (more than an hour off target) while the
25-minute quote keeps a positive pickup score and a better duration
score; with cost at the 0.1 floor and zero confidence, the ×1.3 boost
cannot compensate and the 25-minute quote scores strictly higher. -/
theorem c7_counterexample :
    calculate_quote_score default_weights 0 ⟨.delivery, some 68, .urgent⟩
        ⟨"qA", "p1", 100, 8, 500, 1000, 0, some ⟨"w", "p1", some (1/100)⟩⟩ <
      calculate_quote_score default_weights 0 ⟨.delivery, some 68, .urgent⟩
        ⟨"qB", "p1", 100, 25, 500, 1000, 0, some ⟨"w", "p1", some (1/100)⟩⟩ := by
  simp [calculate_quote_score, normalize_cost_score, normalize_time_score,
    calculate_quality_score, get_priority_adjustment, default_weights, dlookup, ratAbs, max_def]
  norm_num

/-- C7 (amended): under urgent priority the multiplicative adjustment
is 1.3 for pickup delay ≤ 10 minutes, 1.1 for delay ≤ 20 minutes and
0.7 otherwise (shown here at delays 8, 15 and 25); and for every pair
of otherwise-identical quotes differing only in pickup delay (8 vs 25
minutes) under an urgent request **with no requested pickup time**
(pydantic guarantees confidence ≥ 0 and rating ∈ [0,5]), the 8-minute
quote receives a strictly higher final score.  With a requested pickup
time the ranking can invert, see the counterexample. -/
theorem c7_urgent_priority_ranking (now d cost conf eA eB eC : ℚ) (w : Option Worker)
    (idA idB idC pid : String) (req : MovementRequest)
    (hpri : req.priority = .urgent)
    (hreq : req.requested_pickup_time = none)
    (hconf : 0 ≤ conf)
    (hrat : ∀ wk r, w = some wk → wk.rating = some r → 0 ≤ r ∧ r ≤ 5) :
    get_priority_adjustment now .urgent ⟨idA, pid, cost, now + 8, d, eA, conf, w⟩ = 13/10 ∧
    get_priority_adjustment now .urgent ⟨idC, pid, cost, now + 15, d, eC, conf, w⟩ = 11/10 ∧
    get_priority_adjustment now .urgent ⟨idB, pid, cost, now + 25, d, eB, conf, w⟩ = 7/10 ∧
    calculate_quote_score default_weights now req ⟨idB, pid, cost, now + 25, d, eB, conf, w⟩ <
      calculate_quote_score default_weights now req ⟨idA, pid, cost, now + 8, d, eA, conf, w⟩ := by
  have e8 : now + 8 - now = (8:ℚ) := by ring
  have e15 : now + 15 - now = (15:ℚ) := by ring
  have e25 : now + 25 - now = (25:ℚ) := by ring
  have hadjA : get_priority_adjustment now .urgent
      ⟨idA, pid, cost, now + 8, d, eA, conf, w⟩ = 13/10 := by
    simp only [get_priority_adjustment, e8]
    norm_num
  have hadjC : get_priority_adjustment now .urgent
      ⟨idC, pid, cost, now + 15, d, eC, conf, w⟩ = 11/10 := by
    simp only [get_priority_adjustment, e15]
    norm_num
  have hadjB : get_priority_adjustment now .urgent
      ⟨idB, pid, cost, now + 25, d, eB, conf, w⟩ = 7/10 := by
    simp only [get_priority_adjustment, e25]
    norm_num
  refine ⟨hadjA, hadjC, hadjB, ?_⟩
  have hpA : max ((1:ℚ)/10) (1 - (now + 8 - now) / 60) = 13/15 := by
    rw [e8]
    norm_num [max_def]
  have hpB : max ((1:ℚ)/10) (1 - (now + 25 - now) / 60) = 7/12 := by
    rw [e25]
    norm_num [max_def]
  have htA : normalize_time_score now (now + 8) d none =
      (13/15 + max (1/10) (1 - (d - (now + 8)) / 120)) / 2 := by
    simp only [normalize_time_score]
    rw [hpA]
  have htB : normalize_time_score now (now + 25) d none =
      (7/12 + max (1/10) (1 - (d - (now + 25)) / 120)) / 2 := by
    simp only [normalize_time_score]
    rw [hpB]
  have hdd : (1:ℚ) - (d - (now + 25)) / 120 = (1 - (d - (now + 8)) / 120) + 17/120 := by
    ring
  have hdB_le : max ((1:ℚ)/10) (1 - (d - (now + 25)) / 120) ≤
      max ((1:ℚ)/10) (1 - (d - (now + 8)) / 120) + 17/120 := by
    rw [hdd]
    exact max_add_le _ _ _ (by norm_num)
  have hdB0 : (1:ℚ)/10 ≤ max ((1:ℚ)/10) (1 - (d - (now + 25)) / 120) := le_max_left _ _
  have hcs := (normalize_cost_score_bounds cost).1
  have hqs : 0 ≤ calculate_quality_score ⟨idB, pid, cost, now + 25, d, eB, conf, w⟩ := by
    refine (calculate_quality_score_bounds _ ?_).1
    intro wk r hw hr
    exact hrat wk r hw hr
  have hqeq : calculate_quality_score ⟨idA, pid, cost, now + 8, d, eA, conf, w⟩ =
      calculate_quality_score ⟨idB, pid, cost, now + 25, d, eB, conf, w⟩ := rfl
  have wc : (dlookup default_weights "cost").getD 0 = (3:ℚ)/10 := rfl
  have wt : (dlookup default_weights "time").getD 0 = (2:ℚ)/5 := rfl
  have wr : (dlookup default_weights "reliability").getD 0 = (1:ℚ)/5 := rfl
  have wq : (dlookup default_weights "quality").getD 0 = (1:ℚ)/10 := rfl
  simp only [calculate_quote_score, hreq, hpri]
  rw [hadjA, hadjB, htA, htB, hqeq, wc, wt, wr, wq]
  linarith [hdB_le, hdB0, hcs, hconf, hqs]

/-- C7 witness: the amended theorem applied at `now = 0`,
delivery 100, cost 50, confidence 0, no worker info, and an urgent
request with no requested pickup time. -/
theorem c7_urgent_priority_ranking_witness :
    get_priority_adjustment 0 .urgent ⟨"qA", "p1", 50, 0 + 8, 100, 1000, 0, none⟩ = 13/10 ∧
    get_priority_adjustment 0 .urgent ⟨"qC", "p1", 50, 0 + 15, 100, 1000, 0, none⟩ = 11/10 ∧
    get_priority_adjustment 0 .urgent ⟨"qB", "p1", 50, 0 + 25, 100, 1000, 0, none⟩ = 7/10 ∧
    calculate_quote_score default_weights 0 ⟨.delivery, none, .urgent⟩
        ⟨"qB", "p1", 50, 0 + 25, 100, 1000, 0, none⟩ <
      calculate_quote_score default_weights 0 ⟨.delivery, none, .urgent⟩
        ⟨"qA", "p1", 50, 0 + 8, 100, 1000, 0, none⟩ :=
  c7_urgent_priority_ranking 0 100 50 0 1000 1000 1000 none "qA" "qB" "qC" "p1"
    ⟨.delivery, none, .urgent⟩ rfl rfl (by norm_num)
    (fun wk r hw _ => nomatch hw)

/-! ## C8 — signal normalization range -/

/-- C8 counterexample: the claim quantifies over *every* pickup
timestamp and evaluation time.  With no requested pickup time and the
estimated pickup 120 minutes in the past, the pickup component is
`max(0.1, 1 − (−120)/60) = 3`, so the time score is 2 — outside
[0,1]. -/
theorem c8_counterexample : ¬ normalize_time_score 120 0 0 none ≤ 1 := by
  simp [normalize_time_score, ratAbs, max_def]
  norm_num

/-- C8 (amended): for every quote whose estimated pickup time is not
in the past at evaluation time and whose delivery is not before its
pickup (and whose pydantic-validated fields satisfy
confidence ∈ [0,1] and rating ∈ [0,5] when present), all four ranking
signals — cost score, time score, reliability score (the confidence
value itself) and quality score — lie in [0,1].  For a pickup already
in the past the time score can exceed 1, see the counterexample. -/
theorem c8_signal_scores_bounded (now : ℚ) (q : Quote) (requested : Option ℚ)
    (hpick : now ≤ q.estimated_pickup_time)
    (hdel : q.estimated_pickup_time ≤ q.estimated_delivery_time)
    (hconf0 : 0 ≤ q.confidence_score) (hconf1 : q.confidence_score ≤ 1)
    (hrat : ∀ wk r, q.worker_info = some wk → wk.rating = some r → 0 ≤ r ∧ r ≤ 5) :
    (0 ≤ normalize_cost_score q.estimated_cost ∧
      normalize_cost_score q.estimated_cost ≤ 1) ∧
    (0 ≤ normalize_time_score now q.estimated_pickup_time
        q.estimated_delivery_time requested ∧
      normalize_time_score now q.estimated_pickup_time
        q.estimated_delivery_time requested ≤ 1) ∧
    (0 ≤ q.confidence_score ∧ q.confidence_score ≤ 1) ∧
    (0 ≤ calculate_quality_score q ∧ calculate_quality_score q ≤ 1) := by
  refine ⟨⟨?_, (normalize_cost_score_bounds _).2⟩,
    normalize_time_score_bounds now _ _ requested hpick hdel,
    ⟨hconf0, hconf1⟩, calculate_quality_score_bounds q hrat⟩
  linarith [(normalize_cost_score_bounds q.estimated_cost).1]

/-- C8 witness: the amended theorem applied to a concrete valid quote
evaluated at `now = 0`. -/
theorem c8_signal_scores_bounded_witness :
    (0 ≤ normalize_cost_score
        (⟨"q", "p", 50, 10, 40, 100, 1, none⟩ : Quote).estimated_cost ∧
      normalize_cost_score (⟨"q", "p", 50, 10, 40, 100, 1, none⟩ : Quote).estimated_cost ≤ 1) ∧
    (0 ≤ normalize_time_score 0
        (⟨"q", "p", 50, 10, 40, 100, 1, none⟩ : Quote).estimated_pickup_time
        (⟨"q", "p", 50, 10, 40, 100, 1, none⟩ : Quote).estimated_delivery_time none ∧
      normalize_time_score 0
        (⟨"q", "p", 50, 10, 40, 100, 1, none⟩ : Quote).estimated_pickup_time
        (⟨"q", "p", 50, 10, 40, 100, 1, none⟩ : Quote).estimated_delivery_time none ≤ 1) ∧
    (0 ≤ (⟨"q", "p", 50, 10, 40, 100, 1, none⟩ : Quote).confidence_score ∧
      (⟨"q", "p", 50, 10, 40, 100, 1, none⟩ : Quote).confidence_score ≤ 1) ∧
    (0 ≤ calculate_quality_score ⟨"q", "p", 50, 10, 40, 100, 1, none⟩ ∧
      calculate_quality_score ⟨"q", "p", 50, 10, 40, 100, 1, none⟩ ≤ 1) :=
  c8_signal_scores_bounded 0 ⟨"q", "p", 50, 10, 40, 100, 1, none⟩ none
    (by norm_num) (by norm_num) (by norm_num) (by norm_num)
    (fun wk r hw _ => nomatch hw)

/-! ## C9 — error atomicity of `accept_quote` before `create_job` -/

theorem dlookup_filter_none (m : List (String × α)) (k : String) (v : α)
    (pred : String × α → Bool)
    (hnd : (m.map Prod.fst).Nodup)
    (hv : dlookup m k = some v) (hp : pred (k, v) = false) :
    dlookup (m.filter pred) k = none := by
  induction m with
  | nil => simp [dlookup] at hv
  | cons hd t ih =>
    obtain ⟨k0, v0⟩ := hd
    simp only [List.map_cons, List.nodup_cons] at hnd
    by_cases hk : k0 = k
    · subst hk
      simp [dlookup] at hv
      subst hv
      rw [List.filter_cons]
      rw [hp]
      simp only [Bool.false_eq_true, if_neg]
      apply dlookup_eq_none_of_not_mem
      intro hmem
      apply hnd.1
      simp only [List.mem_map] at hmem ⊢
      obtain ⟨x, hx, hxe⟩ := hmem
      exact ⟨x, List.mem_of_mem_filter hx, hxe⟩
    · simp only [dlookup, if_neg hk] at hv
      rw [List.filter_cons]
      by_cases hpred : pred (k0, v0) = true
      · rw [hpred]
        simp only [if_pos]
        simp only [dlookup, if_neg hk]
        exact ih hnd.2 hv
      · simp only [hpred]
        simp only [Bool.false_eq_true, if_neg]
        exact ih hnd.2 hv

/-- C9: when `accept_quote` fails before the provider's `create_job`
is reached — unknown quote id (NotFound), quote past expiry
(Expired), or unknown provider id — the quote cache and job registry
are exactly unchanged; in particular, on an Expired failure the
expired quote is still cached (so an immediate retry fails Expired
again, not NotFound) and only the expiry sweep
(`cleanup_expired_quotes`) removes it. -/
theorem c9_error_atomicity (providers : List (String × ProviderRT)) (s : GatewayState)
    (quote_id : String) (request : MovementRequest) (now : ℚ) (e : GwError)
    (hnd : (s.active_quotes.map Prod.fst).Nodup)
    (hfail : (accept_quote providers s quote_id request now).2 = .error e)
    (hpre : e ≠ .upstream) :
    (accept_quote providers s quote_id request now).1 = s ∧
    (e = .expired →
      (∃ q, dlookup s.active_quotes quote_id = some q ∧ q.expires_at < now) ∧
      accept_quote providers
        (accept_quote providers s quote_id request now).1 quote_id request now =
        (s, .error .expired) ∧
      dlookup (cleanup_expired_quotes s now).active_quotes quote_id = none) := by
  rcases hq : dlookup s.active_quotes quote_id with _ | quote
  · refine ⟨by simp [accept_quote, hq], fun he => ?_⟩
    subst he
    simp [accept_quote, hq] at hfail
  · by_cases hexp : quote.expires_at < now
    · have hmain : accept_quote providers s quote_id request now = (s, .error .expired) := by
        simp only [accept_quote, hq, if_pos hexp]
      refine ⟨by rw [hmain], fun _ => ⟨⟨quote, rfl, hexp⟩, ?_, ?_⟩⟩
      · rw [hmain]
        exact hmain
      · simp only [cleanup_expired_quotes]
        exact dlookup_filter_none s.active_quotes quote_id quote _ hnd hq (by simp [hexp])
    · rcases hp : dlookup providers quote.provider_id with _ | p
      · refine ⟨by simp [accept_quote, hq, if_neg hexp, hp], fun he => ?_⟩
        subst he
        simp [accept_quote, hq, if_neg hexp, hp] at hfail
      · rcases hc : p.create_job quote_id request with _ | job
        · refine ⟨by simp [accept_quote, hq, if_neg hexp, hp, hc], fun he => ?_⟩
          subst he
          simp [accept_quote, hq, if_neg hexp, hp, hc] at hfail
        · simp [accept_quote, hq, if_neg hexp, hp, hc] at hfail

/-- C9 witness: the theorem applied to a cache holding one expired
quote (`expires_at = 10`, `now = 50`). -/
theorem c9_error_atomicity_witness :
    (accept_quote [] ⟨[("q1", ⟨"q1", "p1", 20, 5, 30, 10, 0, none⟩)], []⟩ "q1"
      ⟨.courier, none, .normal⟩ 50).1 =
      ⟨[("q1", ⟨"q1", "p1", 20, 5, 30, 10, 0, none⟩)], []⟩ ∧
    (GwError.expired = GwError.expired →
      (∃ q, dlookup (GatewayState.active_quotes
          ⟨[("q1", ⟨"q1", "p1", 20, 5, 30, 10, 0, none⟩)], []⟩) "q1" = some q ∧
        q.expires_at < 50) ∧
      accept_quote []
        (accept_quote [] ⟨[("q1", ⟨"q1", "p1", 20, 5, 30, 10, 0, none⟩)], []⟩ "q1"
          ⟨.courier, none, .normal⟩ 50).1 "q1" ⟨.courier, none, .normal⟩ 50 =
        (⟨[("q1", ⟨"q1", "p1", 20, 5, 30, 10, 0, none⟩)], []⟩, .error .expired) ∧
      dlookup (cleanup_expired_quotes
          ⟨[("q1", ⟨"q1", "p1", 20, 5, 30, 10, 0, none⟩)], []⟩ 50).active_quotes "q1" =
        none) :=
  c9_error_atomicity [] ⟨[("q1", ⟨"q1", "p1", 20, 5, 30, 10, 0, none⟩)], []⟩ "q1"
    ⟨.courier, none, .normal⟩ 50 .expired (by decide) (by decide) (by decide)

/-! ## C10 — frame property of successful acceptance -/

/-- C10: a successful `accept_quote` removes exactly the accepted
quote id from the cache (no other cached quote changes) and inserts
exactly one job, keyed by the provider-returned job id (fresh, as
provider-generated job ids are), into the registry (no previously
registered job changes, and the registry grows by exactly one
entry). -/
theorem c10_accept_quote_frame (providers : List (String × ProviderRT)) (s : GatewayState)
    (quote_id : String) (request : MovementRequest) (now : ℚ)
    (s' : GatewayState) (job : Job)
    (hnd : (s.active_quotes.map Prod.fst).Nodup)
    (hfresh : dlookup s.active_jobs job.id = none)
    (hok : accept_quote providers s quote_id request now = (s', .ok job)) :
    dlookup s'.active_quotes quote_id = none ∧
    (∀ k, k ≠ quote_id → dlookup s'.active_quotes k = dlookup s.active_quotes k) ∧
    dlookup s'.active_jobs job.id = some job ∧
    (∀ j, j ≠ job.id → dlookup s'.active_jobs j = dlookup s.active_jobs j) ∧
    s'.active_jobs.length = s.active_jobs.length + 1 := by
  rcases hq : dlookup s.active_quotes quote_id with _ | quote
  · simp only [accept_quote, hq] at hok
    simp at hok
  · by_cases hexp : quote.expires_at < now
    · simp only [accept_quote, hq, if_pos hexp] at hok
      simp at hok
    · rcases hp : dlookup providers quote.provider_id with _ | p
      · simp only [accept_quote, hq, if_neg hexp, hp] at hok
        simp at hok
      · rcases hc : p.create_job quote_id request with _ | job0
        · simp only [accept_quote, hq, if_neg hexp, hp, hc] at hok
          simp at hok
        · simp only [accept_quote, hq, if_neg hexp, hp, hc, Prod.mk.injEq,
            Except.ok.injEq] at hok
          obtain ⟨hs', hj⟩ := hok
          subst hj
          subst hs'
          refine ⟨dlookup_derase_self _ _ hnd,
            fun k hk => dlookup_derase_ne _ _ _ hk,
            dlookup_dinsert_self _ _ _,
            fun j hj => dlookup_dinsert_ne _ _ _ _ hj,
            length_dinsert_fresh _ _ _ hfresh⟩

/-- C10 witness: the frame theorem applied to a concrete successful
acceptance (two cached quotes, one pre-existing job). -/
theorem c10_accept_quote_frame_witness :
    dlookup (GatewayState.active_quotes
      ⟨[("q2", ⟨"q2", "p1", 30, 7, 50, 100, 0, none⟩)],
       [("j0", ⟨"j0", "p1", .pending⟩), ("j1", ⟨"j1", "p1", .pending⟩)]⟩) "q1" = none ∧
    (∀ k, k ≠ "q1" →
      dlookup (GatewayState.active_quotes
        ⟨[("q2", ⟨"q2", "p1", 30, 7, 50, 100, 0, none⟩)],
         [("j0", ⟨"j0", "p1", .pending⟩), ("j1", ⟨"j1", "p1", .pending⟩)]⟩) k =
      dlookup (GatewayState.active_quotes
        ⟨[("q1", ⟨"q1", "p1", 20, 5, 30, 100, 0, none⟩),
          ("q2", ⟨"q2", "p1", 30, 7, 50, 100, 0, none⟩)],
         [("j0", ⟨"j0", "p1", .pending⟩)]⟩) k) ∧
    dlookup (GatewayState.active_jobs
      ⟨[("q2", ⟨"q2", "p1", 30, 7, 50, 100, 0, none⟩)],
       [("j0", ⟨"j0", "p1", .pending⟩), ("j1", ⟨"j1", "p1", .pending⟩)]⟩) "j1" =
      some ⟨"j1", "p1", .pending⟩ ∧
    (∀ j, j ≠ "j1" →
      dlookup (GatewayState.active_jobs
        ⟨[("q2", ⟨"q2", "p1", 30, 7, 50, 100, 0, none⟩)],
         [("j0", ⟨"j0", "p1", .pending⟩), ("j1", ⟨"j1", "p1", .pending⟩)]⟩) j =
      dlookup (GatewayState.active_jobs
        ⟨[("q1", ⟨"q1", "p1", 20, 5, 30, 100, 0, none⟩),
          ("q2", ⟨"q2", "p1", 30, 7, 50, 100, 0, none⟩)],
         [("j0", ⟨"j0", "p1", .pending⟩)]⟩) j) ∧
    (GatewayState.active_jobs
      ⟨[("q2", ⟨"q2", "p1", 30, 7, 50, 100, 0, none⟩)],
       [("j0", ⟨"j0", "p1", .pending⟩), ("j1", ⟨"j1", "p1", .pending⟩)]⟩).length =
      (GatewayState.active_jobs
        ⟨[("q1", ⟨"q1", "p1", 20, 5, 30, 100, 0, none⟩),
          ("q2", ⟨"q2", "p1", 30, 7, 50, 100, 0, none⟩)],
         [("j0", ⟨"j0", "p1", .pending⟩)]⟩).length + 1 :=
  c10_accept_quote_frame
    [("p1", ⟨fun _ _ => .ok ⟨"j1", "p1", .pending⟩, fun _ => .error (), fun _ => .error ()⟩)]
    ⟨[("q1", ⟨"q1", "p1", 20, 5, 30, 100, 0, none⟩),
      ("q2", ⟨"q2", "p1", 30, 7, 50, 100, 0, none⟩)],
     [("j0", ⟨"j0", "p1", .pending⟩)]⟩
    "q1" ⟨.rideshare, none, .normal⟩ 0
    ⟨[("q2", ⟨"q2", "p1", 30, 7, 50, 100, 0, none⟩)],
     [("j0", ⟨"j0", "p1", .pending⟩), ("j1", ⟨"j1", "p1", .pending⟩)]⟩
    ⟨"j1", "p1", .pending⟩
    (by decide) (by decide) rfl
